import Mathlib

/-!
Shallow embedding of the `leverage_pool` Soroban contract
(`contracts/leverage_pool/src/lib.rs`).

Modelling conventions:
* Rust `i128` values are modelled as unbounded `Int`; Rust's truncating
  division `/` on `i128` is `Int.tdiv` (both round toward zero).  A Rust
  division by zero panics; where the divisor can be zero in the source
  (`lp_deposit`, `lp_withdraw`) the model returns `Error.DivisionByZero`.
* Rust `u32` values are modelled as `Nat`; `u32::saturating_sub` is `Nat`
  subtraction.
* Soroban `Address` and `Symbol` are modelled as `Nat` (only decidable
  equality is used by the contract).
* Storage (instance + persistent) is flattened into one `PoolState` record;
  TTL extensions (`extend_ttl`) have no semantic content and are dropped.
* External token-contract calls (`token::Client::transfer`) are modelled as
  an append-only `transfers` log in the state; the external token contract
  either succeeds or aborts the whole call, and the model represents the
  succeeding executions.  The contract's own address is the constant
  `contractAddress`.
* The oracle (`lastprice`) and the ledger sequence number are per-call
  environment parameters (`price`, `current_ledger`): each entry point that
  reads them receives them as arguments.  The zk-auth session check of
  `assert_agent_authorized` is the boolean parameter `session_valid`
  (its failure panics "AgentSessionInvalid").  `require_auth` signature
  checks are host-level preconditions outside the contract logic and are
  not modelled.
* Event publication (`env.events().publish`) has no state effect and is
  dropped; values computed only for events (the liquidation `bonus_amount`)
  are noted in comments.
-/

namespace LeveragePool

/-! Concrete states used to instantiate the theorems below.  Fixed cast:
the trader is address `7`, the collateral token is address `3`, the LP is
address `5`, the liquidator is address `9`; the pool asset is address `1`.
The parameters mirror the unit tests of the source (`borrow_rate_bps = 500`,
`liquidation_bonus_bps = 500`, `max_leverage_bps = 100000`,
`min_health_bps = 10000`, collateral factor `7500` bps). -/

/-- Constant `HEALTH_SCALAR` from the source: health ratio scale, 10000 = 1.0. -/
def HEALTH_SCALAR : Int := 10000

/-- Constant `INTEREST_PERIOD` from the source: ledgers per interest accrual period. -/
def INTEREST_PERIOD : Nat := 1000

/-- Constant `PRICE_SCALAR` from the source: Stellar 7-decimal price precision. -/
def PRICE_SCALAR : Int := 10000000

/-- Maximum representable `i128` value (`i128::MAX`). -/
def I128_MAX : Int := 2 ^ 127 - 1

/-- Error enum of the contract, plus `InsufficientBalance`, which the source
raises by name in `lp_withdraw` (`panic!("InsufficientBalance")`) without an
enum discriminant. -/
inductive Error where
  | NotInitialized
  | AlreadyInitialized
  | UnsupportedCollateral
  | InactiveCollateral
  | PositionAlreadyOpen
  | NoOpenPosition
  | InsufficientCollateral
  | BorrowExceedsCollateral
  | InsufficientPoolLiquidity
  | PositionHealthy
  | WithdrawalWouldLiquidate
  | AgentSessionInvalid
  | OracleCallFailed
  | DivisionByZero
  | InsufficientBalance
  deriving DecidableEq

/-- Direction of a leveraged position (recorded, not used in accounting). -/
inductive PositionDirection where
  | Long
  | Short
  deriving DecidableEq

/-- Address type of the host chain, modelled by `Nat`. -/
abbrev Address := Nat

/-- The `Position` record stored per trader. -/
structure Position where
  borrowed_amount : Int
  collateral_token : Address
  collateral_amount : Int
  opened_at_ledger : Nat
  last_interest_ledger : Nat
  direction : PositionDirection
  deriving DecidableEq

/-- Per-collateral-asset configuration (`CollateralConfig`).  `price_feed_key`
is the oracle symbol, modelled as `Nat`; the oracle answer itself is an
environment parameter of each call. -/
structure CollateralConfig where
  collateral_factor_bps : Nat
  price_feed_key : Nat
  is_active : Bool
  deriving DecidableEq

/-- One external token-contract `transfer(src, dst, amount)` call on `token`. -/
structure Transfer where
  src : Address
  dst : Address
  token : Address
  amount : Int
  deriving DecidableEq

/-- Result record of `get_pool_stats`. -/
structure PoolStats where
  total_liquidity : Int
  total_borrowed : Int
  total_shares : Int
  utilization_rate_bps : Nat
  current_borrow_rate_bps : Nat
  deriving DecidableEq

/-- The pool's whole storage, flattening the Soroban instance and persistent
storage maps keyed by `DataKey`. -/
structure PoolState where
  admin : Address
  pool_asset : Address
  total_liquidity : Int
  total_borrowed : Int
  total_shares : Int
  lp_shares : Address → Int
  positions : Address → Option Position
  collateral_balance : Address → Address → Int
  collateral_config : Address → Option CollateralConfig
  borrow_rate_bps : Nat
  liquidation_bonus_bps : Nat
  max_leverage_bps : Nat
  min_health_bps : Nat
  transfers : List Transfer

/-- The contract's own address (`env.current_contract_address()`). -/
def contractAddress : Address := 1000000

/-- Point update of a one-key storage map. -/
def upd {β : Type} (f : Address → β) (a : Address) (v : β) : Address → β :=
  fun x => if x = a then v else f x

/-- Point update of a two-key storage map. -/
def upd2 {β : Type} (f : Address → Address → β) (a b : Address) (v : β) :
    Address → Address → β :=
  fun x y => if x = a ∧ y = b then v else f x y

/-- Pure health computation (`compute_health` in the source): special-cases
`borrowed_amount == 0` to `i128::MAX`, otherwise
`(collateral_amount * price * factor_bps / (10000 * PRICE_SCALAR)) * HEALTH_SCALAR / borrowed_amount`
with Rust truncating division. -/
def compute_health (collateral_amount : Int) (collateral_price : Int)
    (collateral_factor_bps : Nat) (borrowed_amount : Int) : Int :=
  if borrowed_amount = 0 then I128_MAX
  else
    let collateral_value :=
      Int.tdiv (collateral_amount * collateral_price * (collateral_factor_bps : Int))
        (10000 * PRICE_SCALAR)
    Int.tdiv (collateral_value * HEALTH_SCALAR) borrowed_amount

/-- Pure interest accrual on a position (`accrue_interest_internal`):
`elapsed = current_ledger.saturating_sub(last_interest_ledger)`; if zero the
position is unchanged and the delta is 0; otherwise
`interest = borrowed * rate_bps * elapsed / (10000 * INTEREST_PERIOD)` is
added to the debt and the tick advances.  Returns the updated position and
the interest delta. -/
def accrue_interest_internal (position : Position) (borrow_rate_bps : Nat)
    (current_ledger : Nat) : Position × Int :=
  let elapsed := current_ledger - position.last_interest_ledger
  if elapsed = 0 then (position, 0)
  else
    let interest :=
      Int.tdiv (position.borrowed_amount * (borrow_rate_bps : Int) * (elapsed : Int))
        (10000 * (INTEREST_PERIOD : Int))
    ({ position with
        borrowed_amount := position.borrowed_amount + interest
        last_interest_ledger := current_ledger }, interest)

/-- State produced by the `initialize` entry point (on first call): all maps
empty, totals zero, configuration parameters stored.  The oracle and zk-auth
contract addresses are environment collaborators and are not carried in the
model state. -/
def init_state (admin : Address) (pool_asset : Address)
    (borrow_rate_bps liquidation_bonus_bps max_leverage_bps min_health_bps : Nat) :
    PoolState where
  admin := admin
  pool_asset := pool_asset
  total_liquidity := 0
  total_borrowed := 0
  total_shares := 0
  lp_shares := fun _ => 0
  positions := fun _ => none
  collateral_balance := fun _ _ => 0
  collateral_config := fun _ => none
  borrow_rate_bps := borrow_rate_bps
  liquidation_bonus_bps := liquidation_bonus_bps
  max_leverage_bps := max_leverage_bps
  min_health_bps := min_health_bps
  transfers := []

/-- Admin operation `set_collateral_type` (admin auth assumed passed). -/
def set_collateral_type (s : PoolState) (token : Address) (config : CollateralConfig) :
    PoolState :=
  { s with collateral_config := upd s.collateral_config token (some config) }

/-- LP deposit (`lp_deposit`): pulls `amount` of the pool asset, then issues
`amount` shares when `total_shares == 0`, else
`amount * total_shares / total_liquidity` (truncating; a zero
`total_liquidity` there is a Rust division-by-zero panic). -/
def lp_deposit (s : PoolState) (lp : Address) (amount : Int) : Except Error PoolState :=
  if s.total_shares = 0 then
    Except.ok { s with
      transfers := s.transfers ++ [Transfer.mk lp contractAddress s.pool_asset amount]
      lp_shares := upd s.lp_shares lp (s.lp_shares lp + amount)
      total_shares := s.total_shares + amount
      total_liquidity := s.total_liquidity + amount }
  else if s.total_liquidity = 0 then
    Except.error Error.DivisionByZero
  else
    let new_shares := Int.tdiv (amount * s.total_shares) s.total_liquidity
    Except.ok { s with
      transfers := s.transfers ++ [Transfer.mk lp contractAddress s.pool_asset amount]
      lp_shares := upd s.lp_shares lp (s.lp_shares lp + new_shares)
      total_shares := s.total_shares + new_shares
      total_liquidity := s.total_liquidity + amount }

/-- LP withdrawal (`lp_withdraw`): requires share balance, redeems
`shares * total_liquidity / total_shares` (truncating; zero `total_shares`
is a Rust division-by-zero panic), refuses to redeem liquidity out on loan,
transfers out and decrements the balances and totals. -/
def lp_withdraw (s : PoolState) (lp : Address) (shares : Int) : Except Error PoolState :=
  let current_shares := s.lp_shares lp
  if current_shares < shares then
    Except.error Error.InsufficientBalance
  else if s.total_shares = 0 then
    Except.error Error.DivisionByZero
  else
    let redeem_amount := Int.tdiv (shares * s.total_liquidity) s.total_shares
    if s.total_liquidity - s.total_borrowed < redeem_amount then
      Except.error Error.InsufficientPoolLiquidity
    else
      Except.ok { s with
        transfers := s.transfers ++ [Transfer.mk contractAddress lp s.pool_asset redeem_amount]
        lp_shares := upd s.lp_shares lp (current_shares - shares)
        total_shares := s.total_shares - shares
        total_liquidity := s.total_liquidity - redeem_amount }

/-- Collateral deposit (`deposit_collateral`): requires a configured, active
collateral type, pulls the tokens and credits the free balance. -/
def deposit_collateral (s : PoolState) (user : Address) (token : Address)
    (amount : Int) : Except Error PoolState :=
  match s.collateral_config token with
  | none => Except.error Error.UnsupportedCollateral
  | some config =>
    if config.is_active = false then
      Except.error Error.InactiveCollateral
    else
      Except.ok { s with
        transfers := s.transfers ++ [Transfer.mk user contractAddress token amount]
        collateral_balance := upd2 s.collateral_balance user token
          (s.collateral_balance user token + amount) }

/-- Collateral withdrawal (`withdraw_collateral`): checks the free balance
first; if the user has an open position in this token with positive debt,
simulates the post-withdrawal health at the oracle `price` and requires it
to clear `min_health_bps * 120 / 100`; then transfers out and debits. -/
def withdraw_collateral (s : PoolState) (user : Address) (token : Address)
    (amount : Int) (price : Int) : Except Error PoolState :=
  let balance := s.collateral_balance user token
  if balance < amount then
    Except.error Error.InsufficientCollateral
  else
    let proceed : Except Error Unit :=
      match s.positions user with
      | none => Except.ok ()
      | some position =>
        if position.collateral_token = token ∧ 0 < position.borrowed_amount then
          match s.collateral_config token with
          | none => Except.error Error.UnsupportedCollateral
          | some config =>
            let post_health := compute_health (balance - amount) price
              config.collateral_factor_bps position.borrowed_amount
            let safe_health := Int.tdiv ((s.min_health_bps : Int) * 120) 100
            if post_health < safe_health then
              Except.error Error.WithdrawalWouldLiquidate
            else
              Except.ok ()
        else
          Except.ok ()
    match proceed with
    | Except.error e => Except.error e
    | Except.ok _ =>
      Except.ok { s with
        transfers := s.transfers ++ [Transfer.mk contractAddress user token amount]
        collateral_balance := upd2 s.collateral_balance user token (balance - amount) }

/-- Position opening (`open_position`).  `session_valid` is the zk-auth
session answer, `price` the oracle answer for the collateral's feed, and
`current_ledger` the ledger sequence number. -/
def open_position (s : PoolState) (user : Address) (collateral_token : Address)
    (borrow_amount : Int) (direction : PositionDirection) (session_valid : Bool)
    (price : Int) (current_ledger : Nat) : Except Error PoolState :=
  if session_valid = false then
    Except.error Error.AgentSessionInvalid
  else if (s.positions user).isSome then
    Except.error Error.PositionAlreadyOpen
  else
    match s.collateral_config collateral_token with
    | none => Except.error Error.UnsupportedCollateral
    | some config =>
      if config.is_active = false then
        Except.error Error.InactiveCollateral
      else
        let collateral_balance := s.collateral_balance user collateral_token
        if collateral_balance ≤ 0 then
          Except.error Error.InsufficientCollateral
        else
          let max_borrowable :=
            Int.tdiv (collateral_balance * price * (config.collateral_factor_bps : Int))
              (10000 * PRICE_SCALAR)
          if borrow_amount > max_borrowable then
            Except.error Error.BorrowExceedsCollateral
          else if borrow_amount > s.total_liquidity - s.total_borrowed then
            Except.error Error.InsufficientPoolLiquidity
          else
            let initial_health := compute_health collateral_balance price
              config.collateral_factor_bps borrow_amount
            let open_health_req := Int.tdiv ((s.min_health_bps : Int) * 150) 100
            if initial_health < open_health_req then
              Except.error Error.InsufficientCollateral
            else
              Except.ok { s with
                positions := upd s.positions user (some
                  { borrowed_amount := borrow_amount
                    collateral_token := collateral_token
                    collateral_amount := collateral_balance
                    opened_at_ledger := current_ledger
                    last_interest_ledger := current_ledger
                    direction := direction })
                total_borrowed := s.total_borrowed + borrow_amount }

/-- Position closing (`close_position`): accrues interest, recomputes the
collateral value at the oracle `price`, settles positive PnL from pool
liquidity capped at `total_liquidity`, deducts negative PnL from the
collateral (converted at `price`, floored at zero), decrements
`total_borrowed` by the post-accrual debt, overwrites the user's free
collateral balance with the remaining collateral and deletes the position. -/
def close_position (s : PoolState) (user : Address) (session_valid : Bool)
    (price : Int) (current_ledger : Nat) : Except Error PoolState :=
  if session_valid = false then
    Except.error Error.AgentSessionInvalid
  else
    match s.positions user with
    | none => Except.error Error.NoOpenPosition
    | some position0 =>
      let position := (accrue_interest_internal position0 s.borrow_rate_bps current_ledger).1
      match s.collateral_config position.collateral_token with
      | none => Except.error Error.UnsupportedCollateral
      | some _config =>
        let collateral_value := Int.tdiv (position.collateral_amount * price) PRICE_SCALAR
        let pnl := collateral_value - position.borrowed_amount
        let s1 := { s with total_borrowed := s.total_borrowed - position.borrowed_amount }
        let s2 :=
          if 0 < pnl then
            let payout := min pnl s1.total_liquidity
            if 0 < payout then
              { s1 with
                transfers := s1.transfers ++ [Transfer.mk contractAddress user s1.pool_asset payout]
                total_liquidity := s1.total_liquidity - payout }
            else s1
          else s1
        let remaining_collateral :=
          if 0 < pnl then position.collateral_amount
          else if pnl < 0 then
            let loss := -pnl
            let loss_in_collateral :=
              if 0 < price then Int.tdiv (loss * PRICE_SCALAR) price else 0
            max (position.collateral_amount - loss_in_collateral) 0
          else position.collateral_amount
        Except.ok { s2 with
          collateral_balance := upd2 s2.collateral_balance user position.collateral_token
            remaining_collateral
          positions := upd s2.positions user none }

/-- Permissionless interest accrual entry point (`accrue_interest`): a no-op
without a position; otherwise runs `accrue_interest_internal` and — only when
the interest delta is positive — stores the updated position and adds the
delta to `total_borrowed`. -/
def accrue_interest (s : PoolState) (user : Address) (current_ledger : Nat) :
    Except Error PoolState :=
  match s.positions user with
  | none => Except.ok s
  | some position0 =>
    let pi := accrue_interest_internal position0 s.borrow_rate_bps current_ledger
    if 0 < pi.2 then
      Except.ok { s with
        total_borrowed := s.total_borrowed + pi.2
        positions := upd s.positions user (some pi.1) }
    else
      Except.ok s

/-- Permissionless liquidation (`liquidate`): accrues interest, requires the
health at the oracle `price` to be strictly below `min_health_bps`, makes the
liquidator repay the post-accrual debt, hands the full snapshotted collateral
to the liquidator (the `bonus_amount = collateral * bonus_bps / 10000` of the
source is computed only for the event and has no state effect), zeroes the
user's free balance in that token and deletes the position. -/
def liquidate (s : PoolState) (liquidator : Address) (user : Address)
    (price : Int) (current_ledger : Nat) : Except Error PoolState :=
  match s.positions user with
  | none => Except.error Error.NoOpenPosition
  | some position0 =>
    let position := (accrue_interest_internal position0 s.borrow_rate_bps current_ledger).1
    match s.collateral_config position.collateral_token with
    | none => Except.error Error.UnsupportedCollateral
    | some config =>
      let health := compute_health position.collateral_amount price
        config.collateral_factor_bps position.borrowed_amount
      if (s.min_health_bps : Int) ≤ health then
        Except.error Error.PositionHealthy
      else
        Except.ok { s with
          transfers := s.transfers
            ++ [Transfer.mk liquidator contractAddress s.pool_asset position.borrowed_amount]
            ++ [Transfer.mk contractAddress liquidator position.collateral_token
                  position.collateral_amount]
          total_borrowed := s.total_borrowed - position.borrowed_amount
          collateral_balance := upd2 s.collateral_balance user position.collateral_token 0
          positions := upd s.positions user none }

/-- Read-only query `get_position`. -/
def get_position (s : PoolState) (user : Address) : Option Position :=
  s.positions user

/-- Read-only query `get_health_ratio` at the oracle `price` (loading a
missing collateral config panics `UnsupportedCollateral` in the source). -/
def get_health_ratio (s : PoolState) (user : Address) (price : Int) :
    Except Error Int :=
  match s.positions user with
  | none => Except.ok I128_MAX
  | some position =>
    match s.collateral_config position.collateral_token with
    | none => Except.error Error.UnsupportedCollateral
    | some config =>
      Except.ok (compute_health position.collateral_amount price
        config.collateral_factor_bps position.borrowed_amount)

/-- Read-only query `get_pool_stats`; the utilization rate is cast
`as u32` in the source, i.e. reduced modulo `2^32`. -/
def get_pool_stats (s : PoolState) : PoolStats where
  total_liquidity := s.total_liquidity
  total_borrowed := s.total_borrowed
  total_shares := s.total_shares
  utilization_rate_bps :=
    if 0 < s.total_liquidity then
      ((Int.tdiv (s.total_borrowed * 10000) s.total_liquidity) % (2 ^ 32)).toNat
    else 0
  current_borrow_rate_bps := s.borrow_rate_bps

/-- Collateral configuration used by the concrete states (75% factor, active),
as in the source's tests. -/
def cfg75 : CollateralConfig where
  collateral_factor_bps := 7500
  price_feed_key := 0
  is_active := true

/-- Concrete-state builder: pool totals `liq`/`bor`/`shr`, LP `5` holding
`shr` shares, an optional position for trader `7`, and free collateral
balance `bal` of token `3` for trader `7`; token `3` configured with
`cfg75`. -/
def testState (liq bor shr : Int) (pos : Option Position) (bal : Int) : PoolState where
  admin := 0
  pool_asset := 1
  total_liquidity := liq
  total_borrowed := bor
  total_shares := shr
  lp_shares := fun x => if x = 5 then shr else 0
  positions := fun x => if x = 7 then pos else none
  collateral_balance := fun x y => if x = 7 ∧ y = 3 then bal else 0
  collateral_config := fun y => if y = 3 then some cfg75 else none
  borrow_rate_bps := 500
  liquidation_bonus_bps := 500
  max_leverage_bps := 100000
  min_health_bps := 10000
  transfers := []

/-- Projection of a successful result's state; an error is mapped to a dummy
(used only to phrase closed witness statements). -/
def okState (r : Except Error PoolState) : PoolState :=
  match r with
  | Except.ok t => t
  | Except.error _ => init_state 0 0 0 0 0 0

/-- Interest formula as the spec words it:
`floor(borrowed * rate_bps * elapsed / (10000 * INTEREST_PERIOD))`,
written with mathematical floor division (`Int` `/` with positive divisor). -/
def interest_spec (borrowed : Int) (rate_bps : Nat) (elapsed : Nat) : Int :=
  borrowed * (rate_bps : Int) * (elapsed : Int) / (10000 * (INTEREST_PERIOD : Int))

/-- Concrete state for the C5 counterexample: trader `7` holds a position
with debt `1` last accrued at ledger `0`; the rate is `500` bps. -/
def c5s : PoolState :=
  testState 1000 0 0 (some ⟨1, 3, 10, 0, 0, PositionDirection.Long⟩) 10

/-- Concrete state for the C5 witness: debt `3000`, rate `500` bps, one full
interest period elapsed. -/
def c5w : PoolState :=
  testState 20000 3000 0 (some ⟨3000, 3, 10000, 0, 0, PositionDirection.Long⟩) 10000

/-- Concrete pool state for the LP claims: liquidity `1000`, no borrows,
`200` shares all held by LP `5`. -/
def c8s : PoolState := testState 1000 0 200 none 0

/-- Concrete pool state for the C7 witness (same shape as `c8s`). -/
def c7s : PoolState := testState 1000 0 200 none 0

/-- Concrete state for the C3 witness: liquidity `20000`, no borrows, trader
`7` holds `10000` free collateral of token `3`, no open position. -/
def c3s : PoolState := testState 20000 0 0 none 10000

/-- Concrete state for the C4 witness: trader `7` owes `5000` against
`10000` collateral of token `3`. -/
def c4s : PoolState :=
  testState 20000 5000 0 (some ⟨5000, 3, 10000, 0, 0, PositionDirection.Long⟩) 10000

/-- Concrete state for the C6 counterexample: trader `7` has a position with
debt `100` in token `3` but only `5` free collateral. -/
def c6s : PoolState :=
  testState 1000 100 0 (some ⟨100, 3, 5, 0, 0, PositionDirection.Long⟩) 5

/-- Concrete state for the C6 witness: trader `7` owes `5000` against a free
balance of `10000` in token `3`. -/
def c6w : PoolState :=
  testState 20000 5000 0 (some ⟨5000, 3, 10000, 0, 0, PositionDirection.Long⟩) 10000

/-- Concrete state for the C2 witness: trader `7` owes `5000` against
`10000` collateral of token `3`; at price `1.0` the close is profitable
(`pnl = 5000`). -/
def c2s : PoolState :=
  testState 20000 5000 0 (some ⟨5000, 3, 10000, 0, 0, PositionDirection.Long⟩) 10000

/-- Boolean success test on an operation result. -/
def isSuccess (r : Except Error PoolState) : Bool :=
  match r with
  | Except.ok _ => true
  | Except.error _ => false

/-- Fully-utilized pool (`total_borrowed = total_liquidity = 1000`) with a
position of debt `500` for trader `7`; used to break the invariant through
accrual and through a capped profitable close. -/
def c1sA : PoolState :=
  testState 1000 1000 0 (some ⟨500, 3, 2000, 0, 0, PositionDirection.Long⟩) 2000

/-- Empty pool for the negative-amount `lp_deposit` violation. -/
def c1sD : PoolState := testState 0 0 0 none 0

/-- Empty pool holding a (malformed but storable) position with negative
debt, for the `liquidate` violation. -/
def c1sL : PoolState :=
  testState 0 0 0 (some ⟨-100, 3, 10, 0, 0, PositionDirection.Long⟩) 10

/-- Healthy small pool for the C1 witness. -/
def c1w : PoolState := testState 100 50 10 none 0

/-- One public mutating entry point together with its per-call environment
(oracle price, ledger sequence, session validity). -/
inductive Op where
  | opSetCollateralType (token : Address) (config : CollateralConfig)
  | opLpDeposit (lp : Address) (amount : Int)
  | opLpWithdraw (lp : Address) (shares : Int)
  | opDepositCollateral (user token : Address) (amount : Int)
  | opWithdrawCollateral (user token : Address) (amount : Int) (price : Int)
  | opOpenPosition (user token : Address) (borrow : Int) (dir : PositionDirection)
      (session : Bool) (price : Int) (ledger : Nat)
  | opClosePosition (user : Address) (session : Bool) (price : Int) (ledger : Nat)
  | opAccrueInterest (user : Address) (ledger : Nat)
  | opLiquidate (liquidator user : Address) (price : Int) (ledger : Nat)

/-- Dispatch one operation against the state. -/
def applyOp (s : PoolState) : Op → Except Error PoolState
  | Op.opSetCollateralType token config => Except.ok (set_collateral_type s token config)
  | Op.opLpDeposit lp amount => lp_deposit s lp amount
  | Op.opLpWithdraw lp shares => lp_withdraw s lp shares
  | Op.opDepositCollateral user token amount => deposit_collateral s user token amount
  | Op.opWithdrawCollateral user token amount price =>
      withdraw_collateral s user token amount price
  | Op.opOpenPosition user token borrow dir session price ledger =>
      open_position s user token borrow dir session price ledger
  | Op.opClosePosition user session price ledger =>
      close_position s user session price ledger
  | Op.opAccrueInterest user ledger => accrue_interest s user ledger
  | Op.opLiquidate liquidator user price ledger =>
      liquidate s liquidator user price ledger

/-- Chain semantics of one call: a failing call aborts and leaves the state
unchanged, reporting its error. -/
def stepOp (s : PoolState) (op : Op) : PoolState × Option Error :=
  match applyOp s op with
  | Except.ok t => (t, none)
  | Except.error e => (s, some e)

/-- Run a list of calls, collecting each call's outcome. -/
def runOps (s : PoolState) : List Op → PoolState × List (Option Error)
  | [] => (s, [])
  | op :: rest =>
    let p := stepOp s op
    let q := runOps p.1 rest
    (q.1, p.2 :: q.2)

/-- Replace only the stored `MaxLeverageBps` entry. -/
def setMax (m : Nat) (s : PoolState) : PoolState := { s with max_leverage_bps := m }

/-- Theorems below relate the Rust truncating division to the floor division
used in the spec's formulas on the non-negative operands that occur there. -/
theorem tdiv_eq_floor {a b : Int} (ha : 0 ≤ a) (hb : 0 ≤ b) :
    Int.tdiv a b = a / b :=
  Int.tdiv_eq_ediv ha hb

/-- C9: `compute_health` is total: zero debt is special-cased to the maximum
representable `i128` (no division fault), and positive debt yields
`floor(floor(collateral * price * factor / (10000 * PRICE_SCALE)) * HEALTH_SCALE / borrowed)`. -/
theorem claim_C9_compute_health (c p : Int) (f : Nat) (b : Int)
    (hc : 0 ≤ c) (hp : 0 ≤ p) (hb : 0 < b) :
    compute_health c p f 0 = I128_MAX ∧
    compute_health c p f b =
      c * p * (f : Int) / (10000 * PRICE_SCALAR) * HEALTH_SCALAR / b := by
  constructor
  · simp [compute_health]
  · have hb' : b ≠ 0 := ne_of_gt hb
    have h1 : 0 ≤ c * p * (f : Int) :=
      mul_nonneg (mul_nonneg hc hp) (Int.natCast_nonneg f)
    have h2 : (0 : Int) ≤ 10000 * PRICE_SCALAR := by norm_num [PRICE_SCALAR]
    have h3 : 0 ≤ c * p * (f : Int) / (10000 * PRICE_SCALAR) * HEALTH_SCALAR :=
      mul_nonneg (Int.ediv_nonneg h1 h2) (by norm_num [HEALTH_SCALAR])
    unfold compute_health
    rw [if_neg hb', tdiv_eq_floor h1 h2, tdiv_eq_floor h3 hb.le]

/-- Witness for C9 at the boundary instance of the spec's tests. -/
theorem claim_C9_witness :
    compute_health 10000 10000000 7500 0 = I128_MAX ∧
    compute_health 10000 10000000 7500 5000 =
      10000 * 10000000 * ((7500 : Nat) : Int) / (10000 * PRICE_SCALAR) * HEALTH_SCALAR / 5000 :=
  claim_C9_compute_health 10000 10000000 7500 5000 (by norm_num) (by norm_num) (by norm_num)

/-- C5 (amended): on an existing position with non-negative debt, the
`accrue_interest` entry point is idempotent when no time has elapsed, and
otherwise adds exactly `floor(borrowed * rate * elapsed / (10000 * INTEREST_PERIOD))`
to the stored debt and advances the tick — but only when that interest is
strictly positive; when the floored interest is zero the stored position is
left entirely unchanged (the tick is *not* advanced, contrary to the claim
as stated). -/
theorem claim_C5_accrue_amended (s : PoolState) (user : Address) (ledger : Nat)
    (pos0 : Position) (hpos : s.positions user = some pos0)
    (hb : 0 ≤ pos0.borrowed_amount) :
    (ledger - pos0.last_interest_ledger = 0 →
      accrue_interest s user ledger = Except.ok s) ∧
    (0 < interest_spec pos0.borrowed_amount s.borrow_rate_bps
        (ledger - pos0.last_interest_ledger) →
      accrue_interest s user ledger = Except.ok { s with
        total_borrowed := s.total_borrowed + interest_spec pos0.borrowed_amount
          s.borrow_rate_bps (ledger - pos0.last_interest_ledger)
        positions := upd s.positions user (some { pos0 with
          borrowed_amount := pos0.borrowed_amount + interest_spec pos0.borrowed_amount
            s.borrow_rate_bps (ledger - pos0.last_interest_ledger)
          last_interest_ledger := ledger }) }) ∧
    (interest_spec pos0.borrowed_amount s.borrow_rate_bps
        (ledger - pos0.last_interest_ledger) ≤ 0 →
      accrue_interest s user ledger = Except.ok s) := by
  have hnum : 0 ≤ pos0.borrowed_amount * (s.borrow_rate_bps : Int)
      * ((ledger - pos0.last_interest_ledger : Nat) : Int) :=
    mul_nonneg (mul_nonneg hb (Int.natCast_nonneg _)) (Int.natCast_nonneg _)
  have hden : (0 : Int) ≤ 10000 * (INTEREST_PERIOD : Int) := by
    norm_num [INTEREST_PERIOD]
  have hspec : interest_spec pos0.borrowed_amount s.borrow_rate_bps
      (ledger - pos0.last_interest_ledger)
      = Int.tdiv (pos0.borrowed_amount * (s.borrow_rate_bps : Int)
          * ((ledger - pos0.last_interest_ledger : Nat) : Int))
          (10000 * (INTEREST_PERIOD : Int)) := by
    rw [interest_spec, tdiv_eq_floor hnum hden]
  by_cases he : ledger - pos0.last_interest_ledger = 0
  · have hz : interest_spec pos0.borrowed_amount s.borrow_rate_bps
        (ledger - pos0.last_interest_ledger) = 0 := by
      rw [he]; simp [interest_spec]
    refine ⟨fun _ => ?_, fun h => absurd h (by rw [hz]; exact lt_irrefl 0), fun _ => ?_⟩
    · simp [accrue_interest, hpos, accrue_interest_internal, he]
    · simp [accrue_interest, hpos, accrue_interest_internal, he]
  · refine ⟨fun h => absurd h he, fun h => ?_, fun h => ?_⟩
    · rw [hspec] at h
      simp [accrue_interest, hpos, accrue_interest_internal, he, h, hspec]
    · rw [hspec] at h
      simp [accrue_interest, hpos, accrue_interest_internal, he, not_lt.mpr h, hspec]

/-- C5 counterexample: calling `accrue_interest` at ledger `1` (elapsed `1`,
floored interest `0`) leaves the stored `last_interest_ledger` at `0`; the
claim asserts it is advanced to the current time `1`. -/
theorem claim_C5_counterexample :
    Option.map Position.last_interest_ledger
      ((okState (accrue_interest c5s 7 1)).positions 7) = some 0 ∧
    (some 0 : Option Nat) ≠ some 1 :=
  ⟨rfl, by decide⟩

/-- Witness for C5: after exactly `INTEREST_PERIOD = 1000` ticks at
`rate_bps = 500` on `borrowed = 3000` the stored debt grows by exactly
`interest_spec 3000 500 1000 = 150` and the tick advances. -/
theorem claim_C5_witness :
    interest_spec 3000 500 (1000 - 0) = 150 ∧
    0 < interest_spec 3000 500 (1000 - 0) ∧
    accrue_interest c5w 7 1000 = Except.ok { c5w with
      total_borrowed := c5w.total_borrowed + interest_spec 3000 500 (1000 - 0)
      positions := upd c5w.positions 7 (some
        { borrowed_amount := 3000 + interest_spec 3000 500 (1000 - 0)
          collateral_token := 3
          collateral_amount := 10000
          opened_at_ledger := 0
          last_interest_ledger := 1000
          direction := PositionDirection.Long }) } :=
  ⟨by decide, by decide,
    (claim_C5_accrue_amended c5w 7 1000 ⟨3000, 3, 10000, 0, 0, PositionDirection.Long⟩
      rfl (by decide)).2.1 (by decide)⟩

/-- C8: a successful `lp_deposit` issues exactly `amount` shares when
`total_shares == 0` and exactly `floor(amount * total_shares / total_liquidity)`
otherwise, and increases the LP's shares, `total_shares` and `total_liquidity`
by the new shares, the new shares and `amount` respectively. -/
theorem claim_C8_lp_deposit (s : PoolState) (lp : Address) (amount : Int)
    (t : PoolState) (ha : 0 ≤ amount) (hs : 0 ≤ s.total_shares)
    (hl : 0 ≤ s.total_liquidity) (hok : lp_deposit s lp amount = Except.ok t) :
    t.lp_shares lp = s.lp_shares lp +
      (if s.total_shares = 0 then amount
       else amount * s.total_shares / s.total_liquidity) ∧
    t.total_shares = s.total_shares +
      (if s.total_shares = 0 then amount
       else amount * s.total_shares / s.total_liquidity) ∧
    t.total_liquidity = s.total_liquidity + amount := by
  have hns : Int.tdiv (amount * s.total_shares) s.total_liquidity
      = amount * s.total_shares / s.total_liquidity :=
    tdiv_eq_floor (mul_nonneg ha hs) hl
  unfold lp_deposit at hok
  split_ifs at hok with h0 h1
  · cases hok; simp [h0, upd]
  · cases hok; simp [h0, upd, hns]

/-- Witness for C8: depositing `100` into a pool with `200` shares over
liquidity `1000` issues `100 * 200 / 1000 = 20` shares. -/
theorem claim_C8_witness :
    (okState (lp_deposit c8s 5 100)).lp_shares 5 = c8s.lp_shares 5 +
      (if c8s.total_shares = 0 then 100
       else 100 * c8s.total_shares / c8s.total_liquidity) ∧
    (okState (lp_deposit c8s 5 100)).total_shares = c8s.total_shares +
      (if c8s.total_shares = 0 then 100
       else 100 * c8s.total_shares / c8s.total_liquidity) ∧
    (okState (lp_deposit c8s 5 100)).total_liquidity = c8s.total_liquidity + 100 :=
  claim_C8_lp_deposit c8s 5 100 (okState (lp_deposit c8s 5 100))
    (by decide) (by decide) (by decide) rfl

/-- C7: `lp_withdraw` fails with `InsufficientBalance` when the LP holds
fewer shares, otherwise (with non-degenerate total shares) redeems exactly
`floor(shares * total_liquidity / total_shares)`, fails with
`InsufficientPoolLiquidity` whenever `total_liquidity - total_borrowed`
cannot cover the redemption, and on success transfers the redemption out and
decrements the LP's shares, `total_shares` and `total_liquidity` accordingly. -/
theorem claim_C7_lp_withdraw (s : PoolState) (lp : Address) (shares : Int)
    (hs : 0 ≤ shares) (hl : 0 ≤ s.total_liquidity) :
    (s.lp_shares lp < shares →
      lp_withdraw s lp shares = Except.error Error.InsufficientBalance) ∧
    (shares ≤ s.lp_shares lp → 0 < s.total_shares →
      ((s.total_liquidity - s.total_borrowed
          < shares * s.total_liquidity / s.total_shares →
        lp_withdraw s lp shares = Except.error Error.InsufficientPoolLiquidity) ∧
       (shares * s.total_liquidity / s.total_shares
          ≤ s.total_liquidity - s.total_borrowed →
        lp_withdraw s lp shares = Except.ok { s with
          transfers := s.transfers ++ [Transfer.mk contractAddress lp s.pool_asset
            (shares * s.total_liquidity / s.total_shares)]
          lp_shares := upd s.lp_shares lp (s.lp_shares lp - shares)
          total_shares := s.total_shares - shares
          total_liquidity :=
            s.total_liquidity - shares * s.total_liquidity / s.total_shares }))) := by
  refine ⟨fun hlt => ?_, fun hge h0 => ?_⟩
  · unfold lp_withdraw; rw [if_pos hlt]
  · have hrd : Int.tdiv (shares * s.total_liquidity) s.total_shares
        = shares * s.total_liquidity / s.total_shares :=
      tdiv_eq_floor (mul_nonneg hs hl) h0.le
    constructor
    · intro hli
      simp [lp_withdraw, not_lt.mpr hge, ne_of_gt h0, hrd, hli]
    · intro hok
      simp [lp_withdraw, not_lt.mpr hge, ne_of_gt h0, hrd, not_lt.mpr hok]

/-- Witness for C7: withdrawing `50` of `200` shares over liquidity `1000`
redeems `50 * 1000 / 200 = 250` and decrements the balances and totals. -/
theorem claim_C7_witness :
    lp_withdraw c7s 5 50 = Except.ok { c7s with
      transfers := c7s.transfers ++ [Transfer.mk contractAddress 5 c7s.pool_asset
        (50 * c7s.total_liquidity / c7s.total_shares)]
      lp_shares := upd c7s.lp_shares 5 (c7s.lp_shares 5 - 50)
      total_shares := c7s.total_shares - 50
      total_liquidity := c7s.total_liquidity - 50 * c7s.total_liquidity / c7s.total_shares } :=
  (((claim_C7_lp_withdraw c7s 5 50 (by decide) (by decide)).2
    (by decide) (by decide)).2) (by decide)

/-- C3: with authorization, no existing position, an active collateral
configuration, positive free collateral, and the max-borrowable and
pool-liquidity checks passing, `open_position` fails with
`InsufficientCollateral` exactly when the initial health is strictly below
`min_health_bps * 150 / 100` (the code's floor-divided 150% opening
threshold), and succeeds whenever the health meets it — in particular at
the exact boundary. -/
theorem claim_C3_open_health_gate (s : PoolState) (user token : Address)
    (borrow : Int) (dir : PositionDirection) (price : Int) (ledger : Nat)
    (config : CollateralConfig)
    (hnopos : s.positions user = none)
    (hcfg : s.collateral_config token = some config)
    (hact : config.is_active = true)
    (hbal : 0 < s.collateral_balance user token)
    (hmax : borrow ≤ Int.tdiv (s.collateral_balance user token * price
      * (config.collateral_factor_bps : Int)) (10000 * PRICE_SCALAR))
    (hliq : borrow ≤ s.total_liquidity - s.total_borrowed) :
    (compute_health (s.collateral_balance user token) price
        config.collateral_factor_bps borrow < (s.min_health_bps : Int) * 150 / 100 →
      open_position s user token borrow dir true price ledger
        = Except.error Error.InsufficientCollateral) ∧
    ((s.min_health_bps : Int) * 150 / 100 ≤ compute_health
        (s.collateral_balance user token) price config.collateral_factor_bps borrow →
      open_position s user token borrow dir true price ledger
        = Except.ok { s with
            positions := upd s.positions user (some
              { borrowed_amount := borrow
                collateral_token := token
                collateral_amount := s.collateral_balance user token
                opened_at_ledger := ledger
                last_interest_ledger := ledger
                direction := dir })
            total_borrowed := s.total_borrowed + borrow }) := by
  have hreq : Int.tdiv ((s.min_health_bps : Int) * 150) 100
      = (s.min_health_bps : Int) * 150 / 100 :=
    tdiv_eq_floor (mul_nonneg (Int.natCast_nonneg _) (by norm_num)) (by norm_num)
  constructor
  · intro h
    simp [open_position, hnopos, hcfg, hact, not_le.mpr hbal,
      not_lt.mpr hmax, not_lt.mpr hliq, hreq, h]
  · intro h
    simp [open_position, hnopos, hcfg, hact, not_le.mpr hbal,
      not_lt.mpr hmax, not_lt.mpr hliq, hreq, not_lt.mpr h]

/-- Witness for C3 at the exact boundary of the spec: collateral `10000`,
price `1.0` (`10000000` at 7 decimals), factor `7500` bps, borrow `5000`
gives health `15000 = 10000 * 150 / 100`, and the open succeeds. -/
theorem claim_C3_witness :
    compute_health (c3s.collateral_balance 7 3) 10000000
      cfg75.collateral_factor_bps 5000 = 15000 ∧
    (c3s.min_health_bps : Int) * 150 / 100 = 15000 ∧
    open_position c3s 7 3 5000 PositionDirection.Long true 10000000 0
      = Except.ok { c3s with
          positions := upd c3s.positions 7 (some
            { borrowed_amount := 5000
              collateral_token := 3
              collateral_amount := c3s.collateral_balance 7 3
              opened_at_ledger := 0
              last_interest_ledger := 0
              direction := PositionDirection.Long })
          total_borrowed := c3s.total_borrowed + 5000 } :=
  ⟨by decide, by decide,
    (claim_C3_open_health_gate c3s 7 3 5000 PositionDirection.Long 10000000 0 cfg75
      rfl rfl rfl (by decide) (by decide) (by decide)).2 (by decide)⟩

/-- Interest accrual does not change a position's collateral token or
collateral amount. -/
theorem accrue_internal_preserves (p : Position) (r : Nat) (l : Nat) :
    ((accrue_interest_internal p r l).1).collateral_token = p.collateral_token ∧
    ((accrue_interest_internal p r l).1).collateral_amount = p.collateral_amount := by
  unfold accrue_interest_internal
  dsimp only
  split_ifs <;> simp

/-- C4: on an existing position with a configured collateral token,
`liquidate` fails with `PositionHealthy` exactly when the health computed
after interest accrual is at least `min_health_bps`; on success the
position is deleted and the user's free collateral balance in the
position's token is zeroed. -/
theorem claim_C4_liquidate_gate (s : PoolState) (liquidator user : Address)
    (price : Int) (ledger : Nat) (pos0 : Position) (config : CollateralConfig)
    (hpos : s.positions user = some pos0)
    (hcfg : s.collateral_config pos0.collateral_token = some config) :
    (liquidate s liquidator user price ledger = Except.error Error.PositionHealthy ↔
      (s.min_health_bps : Int) ≤ compute_health pos0.collateral_amount price
        config.collateral_factor_bps
        ((accrue_interest_internal pos0 s.borrow_rate_bps ledger).1).borrowed_amount) ∧
    (∀ t, liquidate s liquidator user price ledger = Except.ok t →
      t.positions user = none ∧ t.collateral_balance user pos0.collateral_token = 0) := by
  have htok := (accrue_internal_preserves pos0 s.borrow_rate_bps ledger).1
  have hamt := (accrue_internal_preserves pos0 s.borrow_rate_bps ledger).2
  by_cases hh : (s.min_health_bps : Int) ≤ compute_health pos0.collateral_amount price
      config.collateral_factor_bps
      ((accrue_interest_internal pos0 s.borrow_rate_bps ledger).1).borrowed_amount
  · constructor
    · simp [liquidate, hpos, htok, hamt, hcfg, hh]
    · intro t ht
      simp [liquidate, hpos, htok, hamt, hcfg, hh] at ht
  · constructor
    · simp [liquidate, hpos, htok, hamt, hcfg, hh]
    · intro t ht
      simp [liquidate, hpos, htok, hamt, hcfg, hh] at ht
      subst ht
      simp [upd, upd2, htok]

/-- Witness for C4: at price `1.0` health is `15000 ≥ 10000` and liquidation
fails `PositionHealthy`; at price `0.5` health is `7500 < 10000`,
liquidation succeeds, the position is gone and the free balance is zero. -/
theorem claim_C4_witness :
    liquidate c4s 9 7 10000000 0 = Except.error Error.PositionHealthy ∧
    (okState (liquidate c4s 9 7 5000000 0)).positions 7 = none ∧
    (okState (liquidate c4s 9 7 5000000 0)).collateral_balance 7 3 = 0 :=
  ⟨(claim_C4_liquidate_gate c4s 9 7 10000000 0
      ⟨5000, 3, 10000, 0, 0, PositionDirection.Long⟩ cfg75 rfl rfl).1.mpr (by decide),
   (claim_C4_liquidate_gate c4s 9 7 5000000 0
      ⟨5000, 3, 10000, 0, 0, PositionDirection.Long⟩ cfg75 rfl rfl).2
      (okState (liquidate c4s 9 7 5000000 0)) rfl⟩

/-- C6 (amended): when the user has an open position in the withdrawn token
with positive debt *and the free balance covers the requested amount* (the
balance check runs first in the code), `withdraw_collateral` fails with
`WithdrawalWouldLiquidate` exactly when the simulated post-withdrawal health
is below `min_health_bps * 120 / 100`, and succeeds otherwise; without such
a position the call succeeds exactly when `balance ≥ amount`, failing with
`InsufficientCollateral` otherwise. -/
theorem claim_C6_withdraw_amended (s : PoolState) (user token : Address)
    (amount price : Int) :
    (∀ pos config, s.positions user = some pos → pos.collateral_token = token →
      0 < pos.borrowed_amount → s.collateral_config token = some config →
      amount ≤ s.collateral_balance user token →
      ((compute_health (s.collateral_balance user token - amount) price
          config.collateral_factor_bps pos.borrowed_amount
          < (s.min_health_bps : Int) * 120 / 100 →
        withdraw_collateral s user token amount price
          = Except.error Error.WithdrawalWouldLiquidate) ∧
       ((s.min_health_bps : Int) * 120 / 100 ≤ compute_health
          (s.collateral_balance user token - amount) price
          config.collateral_factor_bps pos.borrowed_amount →
        withdraw_collateral s user token amount price = Except.ok { s with
          transfers := s.transfers ++ [Transfer.mk contractAddress user token amount]
          collateral_balance := upd2 s.collateral_balance user token
            (s.collateral_balance user token - amount) }))) ∧
    ((∀ pos, s.positions user = some pos →
        ¬(pos.collateral_token = token ∧ 0 < pos.borrowed_amount)) →
      ((amount ≤ s.collateral_balance user token →
        withdraw_collateral s user token amount price = Except.ok { s with
          transfers := s.transfers ++ [Transfer.mk contractAddress user token amount]
          collateral_balance := upd2 s.collateral_balance user token
            (s.collateral_balance user token - amount) }) ∧
       (s.collateral_balance user token < amount →
        withdraw_collateral s user token amount price
          = Except.error Error.InsufficientCollateral))) := by
  have h120 : Int.tdiv ((s.min_health_bps : Int) * 120) 100
      = (s.min_health_bps : Int) * 120 / 100 :=
    tdiv_eq_floor (mul_nonneg (Int.natCast_nonneg _) (by norm_num)) (by norm_num)
  constructor
  · intro pos config hpos htk hb hcfg hle
    constructor
    · intro hbad
      simp [withdraw_collateral, not_lt.mpr hle, hpos, htk, hb, hcfg, h120, hbad]
    · intro hgood
      simp [withdraw_collateral, not_lt.mpr hle, hpos, htk, hb, hcfg, h120,
        not_lt.mpr hgood]
  · intro hno
    constructor
    · intro hle
      cases hp : s.positions user with
      | none => simp [withdraw_collateral, not_lt.mpr hle, hp]
      | some pos =>
        simp [withdraw_collateral, not_lt.mpr hle, hp, hno pos hp]
    · intro hgt
      simp [withdraw_collateral, hgt]

/-- C6 counterexample: withdrawing `10` from a balance of `5` with an open
indebted position and a post-withdrawal health far below the 120% margin
fails with `InsufficientCollateral` — not with `WithdrawalWouldLiquidate` as
the claim, read literally, requires. -/
theorem claim_C6_counterexample :
    withdraw_collateral c6s 7 3 10 10000000
      = Except.error Error.InsufficientCollateral ∧
    compute_health (c6s.collateral_balance 7 3 - 10) 10000000
      cfg75.collateral_factor_bps 100 < (c6s.min_health_bps : Int) * 120 / 100 ∧
    Error.InsufficientCollateral ≠ Error.WithdrawalWouldLiquidate :=
  ⟨rfl, by decide, by decide⟩

/-- Witness for C6: withdrawing `1000` keeps the simulated health at
`13500 ≥ 12000` and succeeds; withdrawing `5000` drops it to `7500 < 12000`
and fails with `WithdrawalWouldLiquidate`. -/
theorem claim_C6_witness :
    withdraw_collateral c6w 7 3 1000 10000000 = Except.ok { c6w with
      transfers := c6w.transfers ++ [Transfer.mk contractAddress 7 3 1000]
      collateral_balance := upd2 c6w.collateral_balance 7 3
        (c6w.collateral_balance 7 3 - 1000) } ∧
    withdraw_collateral c6w 7 3 5000 10000000
      = Except.error Error.WithdrawalWouldLiquidate :=
  ⟨((claim_C6_withdraw_amended c6w 7 3 1000 10000000).1
      ⟨5000, 3, 10000, 0, 0, PositionDirection.Long⟩ cfg75 rfl rfl (by decide) rfl
      (by decide)).2 (by decide),
   ((claim_C6_withdraw_amended c6w 7 3 5000 10000000).1
      ⟨5000, 3, 10000, 0, 0, PositionDirection.Long⟩ cfg75 rfl rfl (by decide) rfl
      (by decide)).1 (by decide)⟩

/-- C2: a successful `close_position` on an existing position, with
`collateral_value = collateral_amount * price / PRICE_SCALE` and
`pnl = collateral_value - borrowed_amount` taken after interest accrual:
decrements `total_borrowed` by the full post-accrual debt and deletes the
position; when `pnl > 0` it pays `min(pnl, total_liquidity)` out of pool
liquidity (transferring it to the user when positive) and credits the full
collateral back to the user's free balance; when `pnl < 0` it credits back
the collateral reduced by the loss converted at the current price, floored
at zero; when `pnl = 0` it credits back the collateral unchanged. -/
theorem claim_C2_close_position (s : PoolState) (user : Address) (price : Int)
    (ledger : Nat) (pos0 : Position) (borrowed pnl : Int) (t : PoolState)
    (hpos : s.positions user = some pos0)
    (hca : 0 ≤ pos0.collateral_amount)
    (hp : 0 < price) (hl : 0 ≤ s.total_liquidity)
    (hbor : borrowed
      = ((accrue_interest_internal pos0 s.borrow_rate_bps ledger).1).borrowed_amount)
    (hpnl : pnl = pos0.collateral_amount * price / PRICE_SCALAR - borrowed)
    (hok : close_position s user true price ledger = Except.ok t) :
    t.total_borrowed = s.total_borrowed - borrowed ∧
    t.positions user = none ∧
    (0 < pnl →
      t.total_liquidity = s.total_liquidity - min pnl s.total_liquidity ∧
      t.collateral_balance user pos0.collateral_token = pos0.collateral_amount ∧
      (0 < min pnl s.total_liquidity →
        t.transfers = s.transfers
          ++ [Transfer.mk contractAddress user s.pool_asset (min pnl s.total_liquidity)])) ∧
    (pnl < 0 →
      t.total_liquidity = s.total_liquidity ∧
      t.transfers = s.transfers ∧
      t.collateral_balance user pos0.collateral_token
        = max (pos0.collateral_amount - (-pnl) * PRICE_SCALAR / price) 0) ∧
    (pnl = 0 →
      t.total_liquidity = s.total_liquidity ∧
      t.transfers = s.transfers ∧
      t.collateral_balance user pos0.collateral_token = pos0.collateral_amount) := by
  have htok := (accrue_internal_preserves pos0 s.borrow_rate_bps ledger).1
  have hamt := (accrue_internal_preserves pos0 s.borrow_rate_bps ledger).2
  have hcv : Int.tdiv
      (((accrue_interest_internal pos0 s.borrow_rate_bps ledger).1).collateral_amount * price)
      PRICE_SCALAR = pos0.collateral_amount * price / PRICE_SCALAR := by
    rw [hamt]
    exact tdiv_eq_floor (mul_nonneg hca hp.le) (by norm_num [PRICE_SCALAR])
  have hpnl' : Int.tdiv
      (((accrue_interest_internal pos0 s.borrow_rate_bps ledger).1).collateral_amount * price)
      PRICE_SCALAR
      - ((accrue_interest_internal pos0 s.borrow_rate_bps ledger).1).borrowed_amount
      = pnl := by rw [hcv, ← hbor, ← hpnl]
  cases hcfg : s.collateral_config pos0.collateral_token with
  | none =>
    rw [show s.collateral_config pos0.collateral_token
        = s.collateral_config
          ((accrue_interest_internal pos0 s.borrow_rate_bps ledger).1).collateral_token
      from by rw [htok]] at hcfg
    exact absurd hok (by simp [close_position, hpos, hcfg])
  | some config =>
    simp only [close_position, hpos, htok, hcfg, Bool.true_eq_false, if_false,
      ite_false, hpnl'] at hok
    rcases lt_trichotomy pnl 0 with hneg | hzero | hpos'
    · -- negative pnl branch
      have hnp : ¬ (0 : Int) < pnl := by omega
      have hloss : Int.tdiv (-pnl * PRICE_SCALAR) price = -pnl * PRICE_SCALAR / price :=
        tdiv_eq_floor (mul_nonneg (by omega) (by norm_num [PRICE_SCALAR])) hp.le
      rw [if_neg hnp, if_neg hnp, if_pos hneg, if_pos hp, hloss, hamt] at hok
      cases hok
      refine ⟨by simp [hbor], by simp [upd], fun h => absurd h hnp,
        fun _ => ⟨rfl, rfl, by simp [upd2]⟩, fun h => by omega⟩
    · -- zero pnl branch
      have hnp : ¬ (0 : Int) < pnl := by omega
      have hnn : ¬ pnl < 0 := by omega
      rw [if_neg hnp, if_neg hnp, if_neg hnn, hamt] at hok
      cases hok
      refine ⟨by simp [hbor], by simp [upd], fun h => absurd h hnp,
        fun h => absurd h hnn, fun _ => ⟨rfl, rfl, by simp [upd2]⟩⟩
    · -- positive pnl branch
      by_cases hpay : 0 < min pnl s.total_liquidity
      · rw [if_pos hpos', if_pos hpay, if_pos hpos', hamt] at hok
        cases hok
        refine ⟨by simp [hbor], by simp [upd],
          fun _ => ⟨rfl, by simp [upd2], fun _ => rfl⟩,
          fun h => by omega, fun h => by omega⟩
      · have hmin0 : min pnl s.total_liquidity = 0 :=
          le_antisymm (not_lt.mp hpay) (le_min hpos'.le hl)
        rw [if_pos hpos', if_neg hpay, if_pos hpos', hamt] at hok
        cases hok
        refine ⟨by simp [hbor], by simp [upd],
          fun _ => ⟨by rw [hmin0]; ring, by simp [upd2], fun hc => absurd hc hpay⟩,
          fun h => by omega, fun h => by omega⟩

/-- Witness for C2: the profitable close pays `min(5000, 20000) = 5000` from
pool liquidity, zeroes `total_borrowed`, restores the `10000` collateral to
the free balance and deletes the position. -/
theorem claim_C2_witness :
    (okState (close_position c2s 7 true 10000000 0)).total_borrowed
      = c2s.total_borrowed - 5000 ∧
    (okState (close_position c2s 7 true 10000000 0)).positions 7 = none ∧
    (okState (close_position c2s 7 true 10000000 0)).total_liquidity
      = c2s.total_liquidity - min 5000 c2s.total_liquidity ∧
    (okState (close_position c2s 7 true 10000000 0)).collateral_balance 7 3 = 10000 ∧
    (okState (close_position c2s 7 true 10000000 0)).transfers
      = c2s.transfers
        ++ [Transfer.mk contractAddress 7 c2s.pool_asset (min 5000 c2s.total_liquidity)] := by
  obtain ⟨h1, h2, h3, -, -⟩ :=
    claim_C2_close_position c2s 7 10000000 0
      ⟨5000, 3, 10000, 0, 0, PositionDirection.Long⟩ 5000 5000
      (okState (close_position c2s 7 true 10000000 0))
      rfl (by decide) (by decide) (by decide) (by decide) (by decide) rfl
  exact ⟨h1, h2, (h3 (by decide)).1, (h3 (by decide)).2.1, (h3 (by decide)).2.2 (by decide)⟩

/-- Interest accrual keeps a non-negative debt non-negative. -/
theorem accrue_internal_borrowed_nonneg (p : Position) (r l : Nat)
    (h : 0 ≤ p.borrowed_amount) :
    0 ≤ ((accrue_interest_internal p r l).1).borrowed_amount := by
  unfold accrue_interest_internal
  dsimp only
  split_ifs with he
  · exact h
  · dsimp only
    refine add_nonneg h (Int.tdiv_nonneg ?_ (by norm_num [INTEREST_PERIOD]))
    exact mul_nonneg (mul_nonneg h (Int.natCast_nonneg _)) (Int.natCast_nonneg _)

/-- C1 (amended): from a state with `total_borrowed ≤ total_liquidity`, the
operations `lp_deposit` (non-negative amount), `lp_withdraw`,
`deposit_collateral`, `withdraw_collateral`, `open_position` and `liquidate`
(position debt non-negative) preserve `total_borrowed ≤ total_liquidity` on
success.  `accrue_interest` and `close_position` do not preserve it (see the
counterexample): accrual adds interest to `total_borrowed` without touching
liquidity, and a capped profitable close can drain liquidity below the
remaining borrows. -/
theorem claim_C1_invariant_amended (s : PoolState)
    (hinv : s.total_borrowed ≤ s.total_liquidity) :
    (∀ lp amount t, 0 ≤ amount → lp_deposit s lp amount = Except.ok t →
      t.total_borrowed ≤ t.total_liquidity) ∧
    (∀ lp shares t, lp_withdraw s lp shares = Except.ok t →
      t.total_borrowed ≤ t.total_liquidity) ∧
    (∀ user token amount t, deposit_collateral s user token amount = Except.ok t →
      t.total_borrowed ≤ t.total_liquidity) ∧
    (∀ user token amount price t,
      withdraw_collateral s user token amount price = Except.ok t →
      t.total_borrowed ≤ t.total_liquidity) ∧
    (∀ user token borrow dir sv price ledger t,
      open_position s user token borrow dir sv price ledger = Except.ok t →
      t.total_borrowed ≤ t.total_liquidity) ∧
    (∀ liquidator user price ledger t,
      (∀ pos, s.positions user = some pos → 0 ≤ pos.borrowed_amount) →
      liquidate s liquidator user price ledger = Except.ok t →
      t.total_borrowed ≤ t.total_liquidity) := by
  refine ⟨?_, ?_, ?_, ?_, ?_, ?_⟩
  · intro lp amount t ha hok
    unfold lp_deposit at hok
    split at hok
    · cases hok; dsimp only; linarith
    · split at hok
      · cases hok
      · cases hok; dsimp only; linarith
  · intro lp shares t hok
    unfold lp_withdraw at hok
    dsimp only at hok
    split at hok
    · cases hok
    · split at hok
      · cases hok
      · split at hok
        · cases hok
        · rename_i h3
          cases hok
          dsimp only
          have h3' := not_lt.mp h3
          linarith
  · intro user token amount t hok
    unfold deposit_collateral at hok
    split at hok
    · cases hok
    · split at hok
      · cases hok
      · cases hok; exact hinv
  · intro user token amount price t hok
    unfold withdraw_collateral at hok
    dsimp only at hok
    split at hok
    · cases hok
    · split at hok
      · cases hok
      · cases hok; exact hinv
  · intro user token borrow dir sv price ledger t hok
    unfold open_position at hok
    dsimp only at hok
    split at hok
    · cases hok
    · split at hok
      · cases hok
      · split at hok
        · cases hok
        · split at hok
          · cases hok
          · split at hok
            · cases hok
            · split at hok
              · cases hok
              · split at hok
                · cases hok
                · rename_i hliqc
                  split at hok
                  · cases hok
                  · cases hok
                    dsimp only
                    have hliq' := not_lt.mp hliqc
                    linarith
  · intro liquidator user price ledger t hnn hok
    unfold liquidate at hok
    split at hok
    · cases hok
    · rename_i pos0 hp
      dsimp only at hok
      split at hok
      · cases hok
      · split at hok
        · cases hok
        · cases hok
          dsimp only
          have hb := accrue_internal_borrowed_nonneg pos0 s.borrow_rate_bps ledger
            (hnn pos0 hp)
          linarith

/-- C1 counterexample: each hypothesis of the amended claim is forced.
`accrue_interest` on a fully-utilized pool pushes `total_borrowed` to `1025`
above liquidity `1000`; a profitable `close_position` with payout capped at
the full liquidity leaves `total_borrowed = 500` above liquidity `0`;
`lp_deposit` of a negative amount and `liquidate` of a negative-debt
position also break the invariant. -/
theorem claim_C1_counterexample :
    (c1sA.total_borrowed ≤ c1sA.total_liquidity ∧
      isSuccess (accrue_interest c1sA 7 1000) = true ∧
      (okState (accrue_interest c1sA 7 1000)).total_liquidity
        < (okState (accrue_interest c1sA 7 1000)).total_borrowed) ∧
    (isSuccess (close_position c1sA 7 true 10000000 0) = true ∧
      (okState (close_position c1sA 7 true 10000000 0)).total_liquidity
        < (okState (close_position c1sA 7 true 10000000 0)).total_borrowed) ∧
    (c1sD.total_borrowed ≤ c1sD.total_liquidity ∧
      isSuccess (lp_deposit c1sD 5 (-5)) = true ∧
      (okState (lp_deposit c1sD 5 (-5))).total_liquidity
        < (okState (lp_deposit c1sD 5 (-5))).total_borrowed) ∧
    (c1sL.total_borrowed ≤ c1sL.total_liquidity ∧
      isSuccess (liquidate c1sL 9 7 10000000 0) = true ∧
      (okState (liquidate c1sL 9 7 10000000 0)).total_liquidity
        < (okState (liquidate c1sL 9 7 10000000 0)).total_borrowed) := by
  decide

/-- Witness for C1 (amended): a concrete successful `lp_deposit` preserves
the invariant. -/
theorem claim_C1_witness :
    (okState (lp_deposit c1w 5 20)).total_borrowed
      ≤ (okState (lp_deposit c1w 5 20)).total_liquidity :=
  (claim_C1_invariant_amended c1w (by decide)).1 5 20
    (okState (lp_deposit c1w 5 20)) (by decide) rfl

/-- No entry point reads or writes the stored `MaxLeverageBps`: each call
commutes with replacing it. -/
theorem applyOp_setMax (op : Op) (s : PoolState) (m : Nat) :
    applyOp (setMax m s) op = Except.map (setMax m) (applyOp s op) := by
  cases op with
  | opSetCollateralType token config => rfl
  | opLpDeposit lp amount =>
    unfold applyOp lp_deposit setMax
    dsimp only
    split_ifs <;> rfl
  | opLpWithdraw lp shares =>
    unfold applyOp lp_withdraw setMax
    dsimp only
    split_ifs <;> rfl
  | opDepositCollateral user token amount =>
    unfold applyOp deposit_collateral setMax
    dsimp only
    repeat' first
      | rfl
      | (split_ifs <;> try rfl)
      | (split <;> try rfl)
  | opWithdrawCollateral user token amount price =>
    unfold applyOp withdraw_collateral setMax
    dsimp only
    repeat' first
      | rfl
      | (split_ifs <;> try rfl)
      | (split <;> try rfl)
  | opOpenPosition user token borrow dir session price ledger =>
    unfold applyOp open_position setMax
    dsimp only
    repeat' first
      | rfl
      | (split_ifs <;> try rfl)
      | (split <;> try rfl)
  | opClosePosition user session price ledger =>
    unfold applyOp close_position setMax
    dsimp only
    repeat' first
      | rfl
      | (split_ifs <;> try rfl)
      | (split <;> try rfl)
  | opAccrueInterest user ledger =>
    unfold applyOp accrue_interest setMax
    dsimp only
    repeat' first
      | rfl
      | (split_ifs <;> try rfl)
      | (split <;> try rfl)
  | opLiquidate liquidator user price ledger =>
    unfold applyOp liquidate setMax
    dsimp only
    repeat' first
      | rfl
      | (split_ifs <;> try rfl)
      | (split <;> try rfl)

/-- One chain step commutes with replacing `MaxLeverageBps`. -/
theorem stepOp_setMax (s : PoolState) (m : Nat) (op : Op) :
    stepOp (setMax m s) op = (setMax m (stepOp s op).1, (stepOp s op).2) := by
  unfold stepOp
  rw [applyOp_setMax]
  cases applyOp s op <;> rfl

/-- A whole run commutes with replacing `MaxLeverageBps`. -/
theorem runOps_setMax (ops : List Op) (s : PoolState) (m : Nat) :
    runOps (setMax m s) ops = (setMax m (runOps s ops).1, (runOps s ops).2) := by
  induction ops generalizing s with
  | nil => rfl
  | cons op rest ih =>
    unfold runOps
    rw [stepOp_setMax]
    dsimp only
    rw [ih]

/-- C10: the `max_leverage_bps` stored at initialization is dead state — two
runs differing only in that argument perform the same sequence of
successes/failures, end in states identical except for the stored
`MaxLeverageBps` entry, and answer all read-only queries (`get_position`,
`get_health_ratio`, `get_pool_stats`) identically. -/
theorem claim_C10_max_leverage_unused (ops : List Op)
    (admin pool_asset : Address) (br lb m1 m2 mh : Nat) :
    (runOps (init_state admin pool_asset br lb m1 mh) ops).2
      = (runOps (init_state admin pool_asset br lb m2 mh) ops).2 ∧
    (runOps (init_state admin pool_asset br lb m2 mh) ops).1
      = setMax m2 (runOps (init_state admin pool_asset br lb m1 mh) ops).1 ∧
    (∀ user, get_position (runOps (init_state admin pool_asset br lb m2 mh) ops).1 user
      = get_position (runOps (init_state admin pool_asset br lb m1 mh) ops).1 user) ∧
    (∀ user price,
      get_health_ratio (runOps (init_state admin pool_asset br lb m2 mh) ops).1 user price
      = get_health_ratio (runOps (init_state admin pool_asset br lb m1 mh) ops).1 user price) ∧
    get_pool_stats (runOps (init_state admin pool_asset br lb m2 mh) ops).1
      = get_pool_stats (runOps (init_state admin pool_asset br lb m1 mh) ops).1 := by
  have hinit : init_state admin pool_asset br lb m2 mh
      = setMax m2 (init_state admin pool_asset br lb m1 mh) := rfl
  rw [hinit, runOps_setMax]
  exact ⟨rfl, rfl, fun user => rfl, fun user price => rfl, rfl⟩

end LeveragePool
